import Mathlib

/-!
Verification of the drone_handler core of symonb/drone-knr.

Shallow embedding of src/src/drone_hardware/drone_hardware/drone_handler.py
(class DroneHandler).  Conventions used throughout:

* Coordinates and request offsets are rationals; the float square root
  math.sqrt is modelled as Real.sqrt on the exact rational radicand.
* Reads of the vehicle pose (self.vehicle.location.local_frame and
  self.vehicle.location.global_relative_frame) are modelled as traces
  indexed by the read count: read 0 happens at request acceptance and the
  k-th distance sample reads index k.  All attribute reads inside one
  source line observe the same snapshot.
* The unbounded while loops are fuel-indexed recursions; the value none
  means the fuel ran out with the loop still running (the source loops
  have no timeout), and is never used to decide a claim.
* A Python attribute lookup is modelled by PyLoc.getattr, and a raised
  AttributeError by Except.error PyErr.attributeError.  The dronekit
  location classes carry exactly the attributes of their constructors:
  LocationLocal(north, east, down) and LocationGlobalRelative(lat, lon,
  alt) (the latter matches the Pose (global) data model of the
  specification: latitude, longitude, altitude; it has no north, east or
  down attribute).
* The readiness flag self.state holds the Python strings used by the
  source: "BUSY" and "OK" (the specification calls the latter READY).
* time.sleep durations are recorded as natural numbers of time-units.
-/

namespace DroneKNR

/-- dronekit class LocationLocal: constructor fields north, east, down
(meters, local NED frame). -/
structure LocationLocal where
  north : ℚ
  east : ℚ
  down : ℚ
  deriving DecidableEq

/-- dronekit class LocationGlobalRelative: constructor fields lat, lon, alt
(degrees, degrees, meters above home).  It has no north, east or down
attribute. -/
structure LocationGlobalRelative where
  lat : ℚ
  lon : ℚ
  alt : ℚ
  deriving DecidableEq

/-- The Python exceptions the embedded code can raise. -/
inductive PyErr where
  | attributeError
  deriving DecidableEq

/-- A dronekit location object as handled by drone_handler.py: either of
the two location classes that the file constructs and passes around. -/
inductive PyLoc where
  | loc (l : LocationLocal)
  | glob (g : LocationGlobalRelative)
  deriving DecidableEq

/-- Python attribute lookup on a location object.  Each class answers for
exactly the attributes its constructor sets; any other name raises
AttributeError, as Python object attribute access does. -/
def PyLoc.getattr : PyLoc → String → Except PyErr ℚ
  | .loc l, "north" => .ok l.north
  | .loc l, "east" => .ok l.east
  | .loc l, "down" => .ok l.down
  | .glob g, "lat" => .ok g.lat
  | .glob g, "lon" => .ok g.lon
  | .glob g, "alt" => .ok g.alt
  | _, _ => .error .attributeError

/-- pymavlink constant mavutil.mavlink.MAV_FRAME_LOCAL_NED. -/
def MAV_FRAME_LOCAL_NED : ℕ := 1

/-- pymavlink constant mavutil.mavlink.MAV_FRAME_GLOBAL_RELATIVE_ALT_INT. -/
def MAV_FRAME_GLOBAL_RELATIVE_ALT_INT : ℕ := 6

/-- The fields of the message built by
set_position_target_local_ned_encode in lines 88-96 of drone_handler.py.
The time stamp, target ids, velocity, acceleration and yaw fields are the
constant 0 in the source and are omitted. -/
structure NedMsg where
  frame : ℕ
  type_mask : ℕ
  x : ℚ
  y : ℚ
  z : ℚ
  deriving DecidableEq

/-- Lines 85-98, method goto_position_target_local_ned(self, north, east,
down=-1).  The argument vdown is the value of
self.vehicle.location.local_frame.down at the moment of the call; the
source reads it only inside the sentinel branch of line 86-87. -/
def goto_position_target_local_ned (vdown : ℚ) (north east : ℚ) (down : ℚ := -1) : NedMsg :=
  let down := if down = -1 then vdown else down
  { frame := MAV_FRAME_LOCAL_NED, type_mask := 0b0000111111111000,
    x := north, y := east, z := down }

/-- The fields of the message built by
set_position_target_global_int_encode in lines 101-113. -/
structure GlobalIntMsg where
  frame : ℕ
  type_mask : ℕ
  lat_int : ℚ
  lon_int : ℚ
  alt : ℚ
  deriving DecidableEq

/-- Lines 100-116, method goto_position_target_global_int(self, location).
No method of the file ever calls it: both goto actions transmit through
goto_position_target_local_ned only. -/
def goto_position_target_global_int (location : LocationGlobalRelative) : GlobalIntMsg :=
  { frame := MAV_FRAME_GLOBAL_RELATIVE_ALT_INT, type_mask := 0b0000111111111000,
    lat_int := location.lat * 1e7, lon_int := location.lon * 1e7, alt := location.alt }

/-- Lines 119-123, method calculate_remaining_distance_rel(self, location).
The parameter location is duck-typed in the source (the file calls this
method both with a LocationLocal and with a LocationGlobalRelative), so
its attribute reads go through getattr.  veh is the snapshot of
self.vehicle.location.local_frame for this call. -/
noncomputable def calculate_remaining_distance_rel (veh : LocationLocal) (location : PyLoc) :
    Except PyErr ℝ := do
  let dnorth : ℚ := (← location.getattr "north") - veh.north
  let deast : ℚ := (← location.getattr "east") - veh.east
  let ddown : ℚ := (← location.getattr "down") - veh.down
  return Real.sqrt ((dnorth * dnorth + deast * deast + ddown * ddown : ℚ) : ℝ)

/-- Lines 125-129, method calculate_remaining_distance_global(self,
location).  veh is the snapshot of
self.vehicle.location.global_relative_frame for this call.  Line 128
reads location.down and then
self.vehicle.location.global_relative_frame.down; the vehicle side cannot
be a field projection here because LocationGlobalRelative has no down
field, so both reads of line 128 go through getattr (the lat and lon
reads of lines 126-127 exist as fields on the vehicle snapshot). -/
noncomputable def calculate_remaining_distance_global (veh : LocationGlobalRelative)
    (location : PyLoc) : Except PyErr ℝ := do
  let dlat : ℚ := ((← location.getattr "lat") - veh.lat) * 1.113195e5
  let dlon : ℚ := ((← location.getattr "lon") - veh.lon) * 1.113195e5
  let ddown : ℚ := (← location.getattr "down") - (← (PyLoc.glob veh).getattr "down")
  return Real.sqrt ((dlat * dlat + dlon * dlon + ddown * ddown : ℚ) : ℝ)

/-- The value calculate_remaining_distance_rel returns when its location
argument is a LocationLocal: the Euclidean norm of the component deltas. -/
noncomputable def relDist (veh dest : LocationLocal) : ℝ :=
  Real.sqrt (((dest.north - veh.north) * (dest.north - veh.north) +
      (dest.east - veh.east) * (dest.east - veh.east) +
      (dest.down - veh.down) * (dest.down - veh.down) : ℚ) : ℝ)

/-- Goal fields of the GotoRelative action (offsets in meters). -/
structure GotoRelativeRequest where
  north : ℚ
  east : ℚ
  down : ℚ
  deriving DecidableEq

/-- Goal fields of the GotoGlobal action (offsets in degrees and meters). -/
structure GotoGlobalRequest where
  lat : ℚ
  lon : ℚ
  alt : ℚ
  deriving DecidableEq

/-- Observable outcome of a completed goto_relative_action call: the
destination captured at acceptance, the transmitted message, the emitted
distance samples in order, the terminal result code, the final value of
self.state, and whether goal_handle.succeed() was called. -/
structure RelRun where
  destination : LocationLocal
  sent : NedMsg
  samples : List ℝ
  result : ℤ
  state : String
  succeeded : Bool

/-- Observable outcome of a completed goto_global_action call. -/
structure GlobRun where
  destination : LocationGlobalRelative
  sent : NedMsg
  samples : List ℝ
  result : ℤ
  state : String
  succeeded : Bool

/-- Lines 159-162: the destination of goto_relative_action, read 0 of the
local pose trace plus the requested offset, component-wise. -/
def relDestination (reads : ℕ → LocationLocal) (req : GotoRelativeRequest) : LocationLocal :=
  { north := (reads 0).north + req.north
    east := (reads 0).east + req.east
    down := (reads 0).down + req.down }

/-- Line 170: the message goto_relative_action transmits, built by
goto_position_target_local_ned from the destination components. -/
def relSentMsg (reads : ℕ → LocationLocal) (req : GotoRelativeRequest) : NedMsg :=
  goto_position_target_local_ned (reads 0).down (relDestination reads req).north
    (relDestination reads req).east (relDestination reads req).down

/-- Lines 191-194: the destination of goto_global_action, read 0 of the
global pose trace plus the requested offset, component-wise. -/
def globDestination (greads : ℕ → LocationGlobalRelative) (req : GotoGlobalRequest) :
    LocationGlobalRelative :=
  { lat := (greads 0).lat + req.lat
    lon := (greads 0).lon + req.lon
    alt := (greads 0).alt + req.alt }

open Classical

/-- Lines 176-179: the polling loop of goto_relative_action.  The
argument d is the most recently computed feedback_msg.distance, i is its
sample index; while d exceeds 0.5 the loop computes the next sample from
a fresh pose read and sleeps one time-unit.  Returns the list of samples
computed inside the loop; none means the fuel ran out while still
polling. -/
noncomputable def relLoop (reads : ℕ → LocationLocal) (dest : LocationLocal) :
    ℕ → ℕ → ℝ → Except PyErr (Option (List ℝ))
  | 0, _, d => if d > 0.5 then .ok none else .ok (some [])
  | fuel + 1, i, d =>
    if d > 0.5 then
      match calculate_remaining_distance_rel (reads (i + 1)) (PyLoc.loc dest) with
      | .error e => .error e
      | .ok d2 =>
        match relLoop reads dest fuel (i + 1) d2 with
        | .error e => .error e
        | .ok none => .ok none
        | .ok (some tail) => .ok (some (d2 :: tail))
    else .ok (some [])

/-- Lines 208-211: the polling loop of goto_global_action, same shape and
the same 0.5 threshold as the relative loop, but the samples computed
inside the loop call calculate_remaining_distance_global. -/
noncomputable def globLoop (greads : ℕ → LocationGlobalRelative) (dest : LocationGlobalRelative) :
    ℕ → ℕ → ℝ → Except PyErr (Option (List ℝ))
  | 0, _, d => if d > 0.5 then .ok none else .ok (some [])
  | fuel + 1, i, d =>
    if d > 0.5 then
      match calculate_remaining_distance_global (greads (i + 1)) (PyLoc.glob dest) with
      | .error e => .error e
      | .ok d2 =>
        match globLoop greads dest fuel (i + 1) d2 with
        | .error e => .error e
        | .ok none => .ok none
        | .ok (some tail) => .ok (some (d2 :: tail))
    else .ok (some [])

/-- Lines 156-186, action callback goto_relative_action.  The sequence of
the source: capture the destination from read 0 (lines 159-162), set
self.state to "BUSY" (line 168), transmit one local-NED message
(line 170), compute the first feedback distance from read 1 (line 173),
poll (lines 176-179), mark the goal succeeded, restore self.state to
"OK" and return result 1 (lines 181-186).  The first component of the
result lists the transmitted messages in order. -/
noncomputable def goto_relative_action (reads : ℕ → LocationLocal) (req : GotoRelativeRequest)
    (fuel : ℕ) : List NedMsg × Except PyErr (Option RelRun) :=
  match calculate_remaining_distance_rel (reads 1) (PyLoc.loc (relDestination reads req)) with
  | .error e => ([relSentMsg reads req], .error e)
  | .ok d0 =>
    match relLoop reads (relDestination reads req) fuel 1 d0 with
    | .error e => ([relSentMsg reads req], .error e)
    | .ok none => ([relSentMsg reads req], .ok none)
    | .ok (some tail) =>
      ([relSentMsg reads req],
        .ok (some
          { destination := relDestination reads req, sent := relSentMsg reads req,
            samples := d0 :: tail, result := 1, state := "OK", succeeded := true }))

/-- Lines 188-218, action callback goto_global_action.  The sequence of
the source: capture the destination from read 0 of the global pose trace
(lines 191-194), set self.state to "BUSY" (line 200), then line 202 reads
destination.north, destination.east and destination.alt to call
goto_position_target_local_ned; line 205 computes the first feedback
distance with calculate_remaining_distance_rel applied to the global
destination; lines 208-211 poll with calculate_remaining_distance_global.
Attribute reads on the destination go through getattr because
LocationGlobalRelative carries no north or east attribute. -/
noncomputable def goto_global_action (greads : ℕ → LocationGlobalRelative)
    (lreads : ℕ → LocationLocal) (req : GotoGlobalRequest) (fuel : ℕ) :
    List NedMsg × Except PyErr (Option GlobRun) :=
  match (PyLoc.glob (globDestination greads req)).getattr "north" with
  | .error e => ([], .error e)
  | .ok dn =>
    match (PyLoc.glob (globDestination greads req)).getattr "east" with
    | .error e => ([], .error e)
    | .ok de =>
      match (PyLoc.glob (globDestination greads req)).getattr "alt" with
      | .error e => ([], .error e)
      | .ok da =>
        let msg := goto_position_target_local_ned (lreads 0).down dn de da
        match calculate_remaining_distance_rel (lreads 1) (PyLoc.glob (globDestination greads req)) with
        | .error e => ([msg], .error e)
        | .ok d0 =>
          match globLoop greads (globDestination greads req) fuel 1 d0 with
          | .error e => ([msg], .error e)
          | .ok none => ([msg], .ok none)
          | .ok (some tail) =>
            ([msg],
              .ok (some
                { destination := globDestination greads req, sent := msg,
                  samples := d0 :: tail, result := 1, state := "OK", succeeded := true }))

/-- A polling loop of the shape of lines 57-59 and 63-65: read the
predicate; while it is false, sleep slp time-units and read again.  The
result counts the reads made and lists the sleeps taken; none means the
fuel ran out with the predicate still false. -/
def pollReads (p : ℕ → Bool) (slp : ℕ) : ℕ → ℕ → Option (ℕ × List ℕ)
  | 0, k => if p k then some (k + 1, []) else none
  | fuel + 1, k =>
    if p k then some (k + 1, [])
    else
      match pollReads p slp fuel (k + 1) with
      | none => none
      | some (r, L) => some (r, slp :: L)

/-- Observable outcome of a completed arm() call: the self.state value
set at entry (line 55), the commanded mode (line 56), the counts of
is_armable and armed reads with the sleeps between them, and the
self.state value set at exit (line 69). -/
structure ArmRun where
  stateAtEntry : String
  mode : String
  armable_reads : ℕ
  armable_sleeps : List ℕ
  armed_reads : ℕ
  armed_sleeps : List ℕ
  stateAtExit : String
  deriving DecidableEq

/-- Lines 54-69, method arm(self): set self.state = "BUSY", command GUIDED
mode, poll self.vehicle.is_armable every 5 time-units until true, set the
armed bit, poll self.vehicle.armed every 1 time-unit until true, then set
self.state = "OK".  The traces give the successive values the two vehicle
predicates return. -/
def arm (is_armable armed : ℕ → Bool) (fuel : ℕ) : Option ArmRun :=
  match pollReads is_armable 5 fuel 0 with
  | none => none
  | some (r1, L1) =>
    match pollReads armed 1 fuel 0 with
    | none => none
    | some (r2, L2) =>
      some
        { stateAtEntry := "BUSY", mode := "GUIDED", armable_reads := r1, armable_sleeps := L1,
          armed_reads := r2, armed_sleeps := L2, stateAtExit := "OK" }

/-- Lines 77-82: the altitude polling loop of takeoff, reading
self.vehicle.location.global_relative_frame.alt each iteration and
exiting once the read is at least altitude * 0.97.  Returns the number of
polls made; none means the fuel ran out below the threshold. -/
def takeoffPoll (altitude : ℚ) (altRead : ℕ → ℚ) : ℕ → ℕ → Option ℕ
  | 0, k => if altRead k ≥ altitude * 0.97 then some (k + 1) else none
  | fuel + 1, k =>
    if altRead k ≥ altitude * 0.97 then some (k + 1)
    else takeoffPoll altitude altRead fuel (k + 1)

/-- Observable outcome of a completed takeoff() call: the self.state
value assigned at entry (line 72, which the source sets to "OK" and which
then holds unchanged through the whole climb loop), the number of
altitude polls, and the self.state value assigned at exit (line 83). -/
structure TakeoffRun where
  stateAtEntry : String
  polls : ℕ
  stateAtExit : String
  deriving DecidableEq

/-- Lines 71-83, method takeoff(self, altitude): line 72 assigns
self.state = "OK", simple_takeoff is commanded, the altitude loop polls
until 97 percent of the target is reached, and line 83 assigns
self.state = "OK" again.  No other assignment to self.state occurs in the
method. -/
def takeoff (altitude : ℚ) (altRead : ℕ → ℚ) (fuel : ℕ) : Option TakeoffRun :=
  match takeoffPoll altitude altRead fuel 0 with
  | none => none
  | some n => some { stateAtEntry := "OK", polls := n, stateAtExit := "OK" }

/-- On a LocationLocal argument, calculate_remaining_distance_rel returns
the Euclidean norm of the component deltas. -/
lemma calc_rel_loc (veh l : LocationLocal) :
    calculate_remaining_distance_rel veh (PyLoc.loc l) = .ok (relDist veh l) := rfl

/-- If the predicate is false for the first n reads and true at read n,
the polling loop makes exactly n + 1 reads and sleeps n times. -/
lemma pollReads_eq (p : ℕ → Bool) (slp : ℕ) :
    ∀ n fuel k : ℕ, (∀ i, i < n → p (k + i) = false) → p (k + n) = true → n ≤ fuel →
      pollReads p slp fuel k = some (k + n + 1, List.replicate n slp) := by
  intro n
  induction n with
  | zero =>
    intro fuel k _ h2 _
    rw [Nat.add_zero] at h2
    cases fuel with
    | zero => simp [pollReads, h2]
    | succ f => simp [pollReads, h2]
  | succ m ih =>
    intro fuel k h1 h2 hf
    have hk : p k = false := by simpa using h1 0 (Nat.succ_pos m)
    cases fuel with
    | zero => omega
    | succ f =>
      have h1s : ∀ i, i < m → p (k + 1 + i) = false := by
        intro i hi
        have e : k + 1 + i = k + (i + 1) := by omega
        rw [e]
        exact h1 (i + 1) (by omega)
      have h2s : p (k + 1 + m) = true := by
        have e : k + 1 + m = k + (m + 1) := by omega
        rw [e]; exact h2
      have hrec := ih f (k + 1) h1s h2s (by omega)
      have e2 : k + 1 + m + 1 = k + (m + 1) + 1 := by omega
      simp [pollReads, hk, hrec, List.replicate_succ, e2]

/-- If the induced distance samples after index i stay above the 0.5
threshold for c further reads and then drop to at most 0.5, the relative
polling loop computes exactly the samples of reads i + 1 up to i + c and
terminates. -/
lemma relLoop_eq (reads : ℕ → LocationLocal) (dest : LocationLocal) :
    ∀ c fuel i : ℕ,
      (∀ j, i ≤ j → j < i + c → relDist (reads j) dest > 0.5) →
      relDist (reads (i + c)) dest ≤ 0.5 → c ≤ fuel →
      relLoop reads dest fuel i (relDist (reads i) dest) =
        .ok (some ((List.range' (i + 1) c).map fun j => relDist (reads j) dest)) := by
  intro c
  induction c with
  | zero =>
    intro fuel i _ h2 _
    rw [Nat.add_zero] at h2
    have hn : ¬ relDist (reads i) dest > 0.5 := not_lt.mpr h2
    cases fuel with
    | zero => simp [relLoop, hn]
    | succ f => simp [relLoop, hn]
  | succ m ih =>
    intro fuel i h1 h2 hf
    have hgt : relDist (reads i) dest > 0.5 := h1 i (le_refl i) (by omega)
    cases fuel with
    | zero => omega
    | succ f =>
      have h1s : ∀ j, i + 1 ≤ j → j < i + 1 + m → relDist (reads j) dest > 0.5 := by
        intro j hj1 hj2
        exact h1 j (by omega) (by omega)
      have h2s : relDist (reads (i + 1 + m)) dest ≤ 0.5 := by
        have e : i + 1 + m = i + (m + 1) := by omega
        rw [e]; exact h2
      have hrec := ih f (i + 1) h1s h2s (by omega)
      have hr : List.range' (i + 1) (m + 1) = (i + 1) :: List.range' (i + 1 + 1) m :=
        List.range'_succ (i + 1) m 1
      simp [relLoop, hgt, calc_rel_loc, hrec, hr]

/-- Every sample the relative polling loop appends while started at index
i is the distance evaluated at the corresponding fresh pose read against
the fixed destination. -/
lemma relLoop_samples (reads : ℕ → LocationLocal) (dest : LocationLocal) :
    ∀ (fuel i : ℕ) (d : ℝ) (tail : List ℝ),
      relLoop reads dest fuel i d = .ok (some tail) →
      ∀ k, k < tail.length → tail.getD k 0 = relDist (reads (i + 1 + k)) dest := by
  intro fuel
  induction fuel with
  | zero =>
    intro i d tail h k hk
    by_cases hd : d > 0.5
    · simp [relLoop, hd] at h
    · simp only [relLoop, if_neg hd, Except.ok.injEq, Option.some.injEq] at h
      subst h
      simp at hk
  | succ f ih =>
    intro i d tail h k hk
    by_cases hd : d > 0.5
    · simp only [relLoop, if_pos hd, calc_rel_loc] at h
      rcases hrec : relLoop reads dest f (i + 1) (relDist (reads (i + 1)) dest) with e | o
      · rw [hrec] at h; simp at h
      · rw [hrec] at h
        cases o with
        | none => simp at h
        | some tail2 =>
          simp only [Except.ok.injEq, Option.some.injEq] at h
          subst h
          cases k with
          | zero => simp
          | succ k2 =>
            have hk2 : k2 < tail2.length := by simpa using hk
            have hs := ih (i + 1) (relDist (reads (i + 1)) dest) tail2 hrec k2 hk2
            simp only [List.getD_cons_succ]
            rw [hs]
            have e : i + 1 + 1 + k2 = i + 1 + (k2 + 1) := by omega
            rw [e]
    · simp only [relLoop, if_neg hd, Except.ok.injEq, Option.some.injEq] at h
      subst h
      simp at hk

/-- Inversion of a goto_relative_action call that returned a completed
run: the polling loop terminated, exactly one message was transmitted,
and the run fields are the ones of lines 159-186. -/
lemma goto_rel_inv (reads : ℕ → LocationLocal) (req : GotoRelativeRequest) (fuel : ℕ)
    (msgs : List NedMsg) (run : RelRun)
    (h : goto_relative_action reads req fuel = (msgs, .ok (some run))) :
    ∃ tail, relLoop reads (relDestination reads req) fuel 1
        (relDist (reads 1) (relDestination reads req)) = .ok (some tail) ∧
      msgs = [relSentMsg reads req] ∧
      run =
        { destination := relDestination reads req, sent := relSentMsg reads req,
          samples := relDist (reads 1) (relDestination reads req) :: tail,
          result := 1, state := "OK", succeeded := true } := by
  simp only [goto_relative_action, calc_rel_loc] at h
  rcases hrec : relLoop reads (relDestination reads req) fuel 1
      (relDist (reads 1) (relDestination reads req)) with e | o
  · rw [hrec] at h; simp at h
  · rw [hrec] at h
    cases o with
    | none => simp at h
    | some tail =>
      simp only [Prod.mk.injEq, Except.ok.injEq, Option.some.injEq] at h
      exact ⟨tail, rfl, h.1.symm, h.2.symm⟩


/-- A constant all-zero local pose trace. -/
def zreads : ℕ → LocationLocal := fun _ => { north := 0, east := 0, down := 0 }

/-- The zero relative request. -/
def zreq : GotoRelativeRequest := { north := 0, east := 0, down := 0 }

/-- A constant all-zero global pose trace. -/
def gzreads : ℕ → LocationGlobalRelative := fun _ => { lat := 0, lon := 0, alt := 0 }

/-- The run goto_relative_action produces on the all-zero trace and zero
request: one sample, already below the threshold. -/
noncomputable def run0 : RelRun :=
  { destination := relDestination zreads zreq, sent := relSentMsg zreads zreq,
    samples := [0], result := 1, state := "OK", succeeded := true }

lemma relDist_zero : relDist (zreads 1) (relDestination zreads zreq) = 0 := by
  norm_num [relDist, relDestination, zreads, zreq, Real.sqrt_zero]

lemma goto_rel_zero_eq :
    goto_relative_action zreads zreq 1 = ([relSentMsg zreads zreq], .ok (some run0)) := by
  simp only [goto_relative_action, calc_rel_loc, relDist_zero]
  have hn : ¬ ((0 : ℝ) > 0.5) := by norm_num
  simp [relLoop, hn, run0, relDist_zero]

/-- A local pose trace that is one meter away from the origin at read 1
and at the origin at every other read. -/
def wreads : ℕ → LocationLocal :=
  fun k => if k = 1 then { north := 1, east := 0, down := 0 }
    else { north := 0, east := 0, down := 0 }

lemma wdist1 : relDist (wreads 1) (relDestination wreads zreq) = 1 := by
  norm_num [relDist, relDestination, wreads, zreq, Real.sqrt_one]

lemma wdist2 : relDist (wreads 2) (relDestination wreads zreq) = 0 := by
  norm_num [relDist, relDestination, wreads, zreq, Real.sqrt_zero]

/-- Claim C1: the claim states that every accepted GotoGlobal request
transmits one local-NED position-target message carrying the destination
north and east as x and y and the altitude as z.  The code instead raises
AttributeError on line 202 when it reads destination.north from the
LocationGlobalRelative it built on line 194 (that class carries only lat,
lon and alt), so for every input the action terminates with the error and
the list of transmitted messages is empty. -/
theorem claim_C1_global_goto_send (greads : ℕ → LocationGlobalRelative)
    (lreads : ℕ → LocationLocal) (req : GotoGlobalRequest) (fuel : ℕ) :
    goto_global_action greads lreads req fuel = ([], .error .attributeError) := rfl

/-- Claim C2: the claim states that arm, takeoff and goto all hold the
readiness flag at BUSY for their whole duration.  The arm method does set
"BUSY" at entry and "OK" at exit, but takeoff assigns "OK" at entry
(line 72) and "OK" again at exit (line 83), so the flag reads "OK", never
"BUSY", at every observation point of a takeoff. -/
theorem claim_C2_busy_flag (is_armable armed : ℕ → Bool) (afuel : ℕ)
    (altitude : ℚ) (altRead : ℕ → ℚ) (tfuel : ℕ) :
    (arm is_armable armed afuel = none ∨
      ∃ r1 L1 r2 L2, arm is_armable armed afuel =
        some
          { stateAtEntry := "BUSY", mode := "GUIDED", armable_reads := r1,
            armable_sleeps := L1, armed_reads := r2, armed_sleeps := L2, stateAtExit := "OK" })
    ∧ (takeoff altitude altRead tfuel = none ∨
        ∃ n, takeoff altitude altRead tfuel =
          some { stateAtEntry := "OK", polls := n, stateAtExit := "OK" }) := by
  constructor
  · rcases h1 : pollReads is_armable 5 afuel 0 with _ | ⟨r1, L1⟩
    · left; simp [arm, h1]
    · rcases h2 : pollReads armed 1 afuel 0 with _ | ⟨r2, L2⟩
      · left; simp [arm, h1, h2]
      · right; exact ⟨r1, L1, r2, L2, by simp [arm, h1, h2]⟩
  · rcases ht : takeoffPoll altitude altRead tfuel 0 with _ | n
    · left; simp [takeoff, ht]
    · right; exact ⟨n, by simp [takeoff, ht]⟩

/-- Claim C3: the claim states that the first, pre-loop distance sample of
each goto action uses the evaluator of the action frame.  For GotoGlobal,
line 205 instead calls calculate_remaining_distance_rel on the global
destination; this theorem shows that that very expression raises
AttributeError for every vehicle pose and every global destination (no
first sample in the global frame can be produced by it), while in the
embedding of goto_global_action line 205 is reached by no run because
line 202 has already raised. -/
theorem claim_C3_first_sample (veh : LocationLocal) (g : LocationGlobalRelative) :
    calculate_remaining_distance_rel veh (PyLoc.glob g) = .error .attributeError := rfl

/-- Claim C4: the claim states that in either frame the polling loop
exits exactly at the first sample at most 0.5.  The global action raises
before its loop ever runs (first conjunct, at the concrete failing
input); for the relative action the property holds in full: if the
distance sequence induced by the pose reads stays above 0.5 before
sample N and is at most 0.5 at sample N, exactly samples 1 to N are
emitted and the action terminates with result 1 (second conjunct). -/
theorem claim_C4_loop_exit :
    goto_global_action gzreads zreads { lat := 0, lon := 0, alt := 0 } 3 =
      ([], .error .attributeError)
    ∧ ∀ (reads : ℕ → LocationLocal) (req : GotoRelativeRequest) (N fuel : ℕ),
        1 ≤ N → N ≤ fuel →
        (∀ i, 1 ≤ i → i < N → relDist (reads i) (relDestination reads req) > 0.5) →
        relDist (reads N) (relDestination reads req) ≤ 0.5 →
        goto_relative_action reads req fuel =
          ([relSentMsg reads req],
            .ok (some
              { destination := relDestination reads req, sent := relSentMsg reads req,
                samples :=
                  (List.range' 1 N).map fun i => relDist (reads i) (relDestination reads req),
                result := 1, state := "OK", succeeded := true })) := by
  constructor
  · rfl
  · intro reads req N fuel hN hfuel h1 h2
    have h1s : ∀ j, 1 ≤ j → j < 1 + (N - 1) →
        relDist (reads j) (relDestination reads req) > 0.5 := by
      intro j hj1 hj2; exact h1 j hj1 (by omega)
    have h2s : relDist (reads (1 + (N - 1))) (relDestination reads req) ≤ 0.5 := by
      have e : 1 + (N - 1) = N := by omega
      rw [e]; exact h2
    have hrec := relLoop_eq reads (relDestination reads req) (N - 1) fuel 1 h1s h2s (by omega)
    have hr : List.range' 1 N = 1 :: List.range' 2 (N - 1) := by
      nth_rewrite 1 [show N = (N - 1) + 1 by omega]
      exact List.range'_succ 1 (N - 1) 1
    simp [goto_relative_action, calc_rel_loc, hrec, hr]

/-- Witness for claim C4 at a concrete input: on the trace wreads the
induced distance sequence is 1, 0, so the loop exits at sample 2 after
emitting exactly the two samples. -/
theorem claim_C4_witness :
    goto_relative_action wreads zreq 2 =
      ([relSentMsg wreads zreq],
        .ok (some
          { destination := relDestination wreads zreq, sent := relSentMsg wreads zreq,
            samples := [1, 0], result := 1, state := "OK", succeeded := true })) := by
  have h := claim_C4_loop_exit.2 wreads zreq 2 2 (by norm_num) (le_refl 2)
    (by
      intro i hi1 hi2
      have e : i = 1 := by omega
      subst e
      rw [wdist1]; norm_num)
    (by rw [wdist2]; norm_num)
  rw [h]
  have hl : (List.range' 1 2).map
      (fun i => relDist (wreads i) (relDestination wreads zreq)) = [1, 0] := by
    have hr : List.range' 1 2 = [1, 2] := rfl
    rw [hr]
    simp [wdist1, wdist2]
  rw [hl]

/-- Claim C5: the destination of every accepted goto request, in either
frame, is the pose of read 0 (the acceptance read) plus the requested
offset, component-wise.  First conjunct: the destination goto_global_action
captures in lines 191-194 (the only destination computation of the global
flow, evaluated before the line-202 fault) is the read-0 global pose plus
the offset.  Second conjunct: for every completed GotoRelative run, the
run destination is the read-0 local pose plus the offset, and every
emitted sample is the distance of a later fresh pose read to that one
fixed destination, which is therefore computed once and never recomputed
from later poses. -/
theorem claim_C5_destination :
    (∀ (greads : ℕ → LocationGlobalRelative) (req : GotoGlobalRequest),
        globDestination greads req =
          { lat := (greads 0).lat + req.lat, lon := (greads 0).lon + req.lon,
            alt := (greads 0).alt + req.alt })
    ∧ ∀ (reads : ℕ → LocationLocal) (req : GotoRelativeRequest) (fuel : ℕ)
        (msgs : List NedMsg) (run : RelRun),
        goto_relative_action reads req fuel = (msgs, .ok (some run)) →
        run.destination = relDestination reads req ∧
        relDestination reads req =
          { north := (reads 0).north + req.north, east := (reads 0).east + req.east,
            down := (reads 0).down + req.down } ∧
        ∀ k, k < run.samples.length →
          run.samples.getD k 0 = relDist (reads (k + 1)) (relDestination reads req) := by
  constructor
  · intro greads req
    rfl
  · intro reads req fuel msgs run h
    obtain ⟨tail, hrec, hmsgs, hrun⟩ := goto_rel_inv reads req fuel msgs run h
    subst hrun
    refine ⟨rfl, rfl, ?_⟩
    intro k hk
    cases k with
    | zero => simp
    | succ k2 =>
      have hk2 : k2 < tail.length := by simpa using hk
      have hs := relLoop_samples reads (relDestination reads req) fuel 1 _ tail hrec k2 hk2
      simp only [List.getD_cons_succ]
      rw [hs]
      have e : 1 + 1 + k2 = k2 + 1 + 1 := by omega
      rw [e]

/-- Witness for claim C5 at concrete inputs: the global destination of
the all-zero trace and the scenario request is the request offset itself,
and the zero relative run captures the destination of read 0 plus the
zero offset. -/
theorem claim_C5_witness :
    globDestination gzreads { lat := 1 / 10000, lon := 0, alt := 0 } =
      { lat := (gzreads 0).lat + 1 / 10000, lon := (gzreads 0).lon + 0,
        alt := (gzreads 0).alt + 0 }
    ∧ run0.destination = relDestination zreads zreq
    ∧ relDestination zreads zreq =
      { north := (zreads 0).north + zreq.north, east := (zreads 0).east + zreq.east,
        down := (zreads 0).down + zreq.down } := by
  have hg := claim_C5_destination.1 gzreads { lat := 1 / 10000, lon := 0, alt := 0 }
  have hr := claim_C5_destination.2 zreads zreq 1 [relSentMsg zreads zreq] run0 goto_rel_zero_eq
  exact ⟨hg, hr.1, hr.2.1⟩

/-- Claim C6: the claim states that globalDistance scales the lat and lon
degree deltas by 111319.5 and takes the altitude delta in meters,
yielding about 11.13 at the stated scenario.  The code of
calculate_remaining_distance_global reads the attribute down on
global-frame objects (line 128), which LocationGlobalRelative does not
carry (its vertical field is alt), so the function raises AttributeError
for every input, and in particular at the scenario input lat 0.0001,
lon 0, alt 0 it produces no number at all. -/
theorem claim_C6_global_distance :
    (∀ (veh : LocationGlobalRelative) (location : PyLoc),
        calculate_remaining_distance_global veh location = .error .attributeError)
    ∧ calculate_remaining_distance_global { lat := 0, lon := 0, alt := 0 }
        (PyLoc.glob { lat := 1 / 10000, lon := 0, alt := 0 }) = .error .attributeError := by
  constructor
  · intro veh location
    cases location with
    | loc l => rfl
    | glob g => rfl
  · rfl

/-- Claim C7: the claim states that every accepted goto request of either
frame terminates as Succeeded with result 1 and readiness restored.  For
GotoRelative every completed run indeed carries result 1, state "OK" and
a succeeded goal (first conjunct); the GotoGlobal action instead raises
AttributeError at the concrete scenario input and never reaches
goal_handle.succeed(), the result assignment, or the state restore
(second conjunct). -/
theorem claim_C7_outcome :
    (∀ (reads : ℕ → LocationLocal) (req : GotoRelativeRequest) (fuel : ℕ)
        (msgs : List NedMsg) (run : RelRun),
        goto_relative_action reads req fuel = (msgs, .ok (some run)) →
        run.result = 1 ∧ run.state = "OK" ∧ run.succeeded = true)
    ∧ goto_global_action gzreads zreads { lat := 1 / 10000, lon := 0, alt := 0 } 5 =
        ([], .error .attributeError) := by
  constructor
  · intro reads req fuel msgs run h
    obtain ⟨tail, hrec, hmsgs, hrun⟩ := goto_rel_inv reads req fuel msgs run h
    subst hrun
    exact ⟨rfl, rfl, rfl⟩
  · rfl

/-- Witness for claim C7 at a concrete input: the zero run terminates
with result 1, state "OK" and a succeeded goal. -/
theorem claim_C7_witness :
    run0.result = 1 ∧ run0.state = "OK" ∧ run0.succeeded = true :=
  claim_C7_outcome.1 zreads zreq 1 [relSentMsg zreads zreq] run0 goto_rel_zero_eq

/-- Claim C8: if is_armable is false for exactly n reads before turning
true and armed is false for exactly m reads before turning true, the arm
sequencer makes exactly n + 1 armable reads with a 5 time-unit sleep
after each false one and exactly m + 1 armed reads with a 1 time-unit
sleep after each false one. -/
theorem claim_C8_arm_polls (is_armable armed : ℕ → Bool) (n m fuel : ℕ)
    (h1 : ∀ k, k < n → is_armable k = false) (h2 : is_armable n = true)
    (h3 : ∀ k, k < m → armed k = false) (h4 : armed m = true)
    (h5 : n ≤ fuel) (h6 : m ≤ fuel) :
    arm is_armable armed fuel =
      some
        { stateAtEntry := "BUSY", mode := "GUIDED", armable_reads := n + 1,
          armable_sleeps := List.replicate n 5, armed_reads := m + 1,
          armed_sleeps := List.replicate m 1, stateAtExit := "OK" } := by
  have p1 := pollReads_eq is_armable 5 n fuel 0 (fun i hi => by simpa using h1 i hi)
    (by simpa using h2) h5
  have p2 := pollReads_eq armed 1 m fuel 0 (fun i hi => by simpa using h3 i hi)
    (by simpa using h4) h6
  simp [arm, p1, p2]

/-- Witness for claim C8 at the concrete scenario n = 2, m = 1: exactly
3 armable reads with sleeps 5, 5 and 2 armed reads with sleep 1. -/
theorem claim_C8_witness :
    arm (fun k => decide (2 ≤ k)) (fun k => decide (1 ≤ k)) 2 =
      some
        { stateAtEntry := "BUSY", mode := "GUIDED", armable_reads := 3,
          armable_sleeps := [5, 5], armed_reads := 2, armed_sleeps := [1],
          stateAtExit := "OK" } := by
  have h := claim_C8_arm_polls (fun k => decide (2 ≤ k)) (fun k => decide (1 ≤ k)) 2 1 2
    (by decide) (by decide) (by decide) (by decide) (by decide) (by decide)
  simpa using h

/-- Claim C9: on local poses the relative distance evaluator returns the
Euclidean norm of the north, east, down deltas; it is symmetric in the
two poses, zero on identical poses, and never negative. -/
theorem claim_C9_local_distance (a b : LocationLocal) :
    calculate_remaining_distance_rel a (PyLoc.loc b) = .ok (relDist a b)
    ∧ relDist a b =
        Real.sqrt (((b.north - a.north) * (b.north - a.north) +
          (b.east - a.east) * (b.east - a.east) +
          (b.down - a.down) * (b.down - a.down) : ℚ) : ℝ)
    ∧ relDist a b = relDist b a
    ∧ relDist a a = 0
    ∧ 0 ≤ relDist a b := by
  refine ⟨rfl, rfl, ?_, ?_, Real.sqrt_nonneg _⟩
  · unfold relDist
    exact congrArg Real.sqrt (by push_cast; ring)
  · norm_num [relDist, Real.sqrt_zero]

/-- Claim C10: the local-NED send primitive treats down = -1 as a
sentinel replaced by the current local-frame down of the vehicle, and
transmits every other down value unchanged, with north and east passed
through as x and y in both cases. -/
theorem claim_C10_down_sentinel (vdown north east down : ℚ) :
    (down = -1 →
      goto_position_target_local_ned vdown north east down =
        { frame := MAV_FRAME_LOCAL_NED, type_mask := 0b0000111111111000,
          x := north, y := east, z := vdown })
    ∧ (down ≠ -1 →
      goto_position_target_local_ned vdown north east down =
        { frame := MAV_FRAME_LOCAL_NED, type_mask := 0b0000111111111000,
          x := north, y := east, z := down }) := by
  constructor
  · intro h; simp [goto_position_target_local_ned, h]
  · intro h; simp [goto_position_target_local_ned, h]

/-- Witness for claim C10 at concrete inputs: with current vehicle down 7
the sentinel call transmits z = 7 and the call with down 3 transmits
z = 3. -/
theorem claim_C10_witness :
    goto_position_target_local_ned 7 1 2 (-1) =
      { frame := MAV_FRAME_LOCAL_NED, type_mask := 0b0000111111111000, x := 1, y := 2, z := 7 }
    ∧ goto_position_target_local_ned 7 1 2 3 =
      { frame := MAV_FRAME_LOCAL_NED, type_mask := 0b0000111111111000, x := 1, y := 2, z := 3 } :=
  ⟨(claim_C10_down_sentinel 7 1 2 (-1)).1 rfl,
    (claim_C10_down_sentinel 7 1 2 3).2 (by norm_num)⟩

end DroneKNR
